import Mathlib

/-!
Verification of the mcurl wrapper (mcurl/__init__.py) against its
natural-language specification.  The Python-visible state of a Curl handle
and of the process-wide MCurl caches is embedded shallowly; engine-level
(libcurl) setopt calls that a claim depends on are recorded as explicit
EngineOp values.  Byte strings are modelled as lists of naturals.
-/

namespace Mcurl

/-- Engine-level option writes performed by the wrapper.  Only the options
that the claims inspect are recorded; constructors mirror the CURLOPT names
used in the source. -/
inductive EngineOp where
  | proxyHost (host : String)
  | proxyport (port : Int)
  | noproxy (np : String)
  | proxyauth (v : Nat)
  | proxyuserpwd (u : String)
  | proxyusername (u : String)
  | proxypassword (p : String)
  | httpproxytunnel (b : Bool)
  | suppressConnectHeaders (b : Bool)
deriving DecidableEq

/-- The Python value held in the headers field of a handle: the cffi NULL
sentinel (the class default), the Python None value (assigned by reset), or
an owned slist of header strings built by set_headers. -/
inductive HeadersField where
  | null : HeadersField
  | pynone : HeadersField
  | slist (hs : List String) : HeadersField
deriving DecidableEq

/-- libcurl status and option constants used by the source. -/
def CURLE_OK : Nat := 0
def CURLE_UNSUPPORTED_PROTOCOL : Nat := 1
def CURLE_URL_MALFORMAT : Nat := 3
def CURLE_NOT_BUILT_IN : Nat := 4
def CURLE_COULDNT_RESOLVE_PROXY : Nat := 5
def CURLE_COULDNT_RESOLVE_HOST : Nat := 6
def CURLE_COULDNT_CONNECT : Nat := 7
def CURLE_OPERATION_TIMEDOUT : Nat := 28
def CURLE_SEND_FAIL_REWIND : Nat := 65

def CURL_POLL_IN : Nat := 1
def CURL_POLL_OUT : Nat := 2
def CURL_POLL_INOUT : Nat := 3
def CURL_POLL_REMOVE : Nat := 4

/-- Python-visible state of one Curl handle.  Field defaults are the class
attribute defaults of the Curl class in the source.  The engine handle
identity fields (easy, easyhash, ceasyhash) carry no Python-visible request
state and are not modelled.  The client files are modelled as in-memory
buffers in the style of Curl.buffer(): the read source is a list of bytes,
the two output sinks are lists of written byte chunks. -/
@[ext]
structure Curl where
  sock_fd : Option Int := none
  client_rfile : Option (List Nat) := none
  client_wfile : Option (List (List Nat)) := none
  client_hfile : Option (List (List Nat)) := none
  auth : Option String := none
  headers : HeadersField := HeadersField.null
  method : Option String := none
  proxy : Option String := none
  request_version : Option String := none
  size : Option Int := none
  url : Option String := none
  user : Option String := none
  xheaders : Option (List (String × String)) := none
  cerr : Nat := CURLE_OK
  done : Bool := false
  errstr : String := ""
  resp : Nat := 503
  sentheaders : Bool := false
  suppress : Bool := false
  is_connect : Bool := false
  is_easy : Bool := false
  is_patch : Bool := false
  is_post : Bool := false
  is_tunnel : Bool := false
  is_upload : Bool := false
deriving DecidableEq

/-- The process-wide proxytype cache: proxy endpoint (the proxy field of the
caching handle, which Python allows to be None) mapped to the negotiated
mechanism name. -/
abbrev ProxyCache := List (Option String × String)

/-- Substring test on byte lists, mirroring the Python expression
b"407" in data. -/
def bytesHave : List Nat → List Nat → Bool
  | _, [] => true
  | [], _ => false
  | a :: hay, needle =>
    if needle.isPrefixOf (a :: hay) then true else bytesHave hay needle

/-- Python str.startswith, over the character list of the string. -/
def strStarts (s pre : String) : Bool := pre.data.isPrefixOf s.data

/-- Python str.upper (the names involved are ASCII). -/
def strUpper (s : String) : String := String.mk (s.data.map Char.toUpper)

/-- Python slicing s[n:] on a string. -/
def strDrop (s : String) (n : Nat) : String := String.mk (s.data.drop n)

/-- Substring test on strings, mirroring the Python expression
"://" not in url. -/
def strHave (hay needle : String) : Bool :=
  hay.data.tails.any fun t => needle.data.isPrefixOf t

/-- Python str.split(sep) for a single-character separator, over the
character list: empty fields are kept, the empty string yields one empty
field. -/
def splitChar (sep : Char) : List Char → List String
  | [] => [""]
  | c :: rest =>
    match splitChar sep rest with
    | [] => [String.mk [c]]
    | s :: tl =>
      if c = sep then "" :: s :: tl
      else String.mk (c :: s.data) :: tl

/-- Python msg.split(" "). -/
def pySplitSpace (s : String) : List String := splitChar (Char.ofNat 32) s.data

/-- Bitwise complement within 64 bits: cffi exposes the CURLAUTH_* macros as
unsigned long values and Python evaluates x & ~y over them. -/
def compl64 (x : Nat) : Nat := (2 ^ 64 - 1) - x

/-- The CURLAUTH_* constant table reached through getattr in getauth.
Missing names raise AttributeError in Python, hence the Option. -/
def CURLAUTH : String → Option Nat
  | "NONE" => some 0
  | "BASIC" => some 1
  | "DIGEST" => some 2
  | "NEGOTIATE" => some 4
  | "GSSNEGOTIATE" => some 4
  | "GSSAPI" => some 4
  | "NTLM" => some 8
  | "DIGEST_IE" => some 16
  | "NTLM_WB" => some 32
  | "BEARER" => some 64
  | "AWS_SIGV4" => some 128
  | "ONLY" => some 2147483648
  | "ANY" => some (compl64 16)
  | "ANYSAFE" => some (compl64 17)
  | _ => none

def CURLAUTH_ANY : Nat := compl64 16
def CURLAUTH_ANYSAFE : Nat := compl64 17
def CURLAUTH_ONLY : Nat := 2147483648

/-- getauth: map a mechanism string (with NO, SAFENO, ONLY qualifier
prefixes) to the numeric CURLOPT_PROXYAUTH value, following the branch
order of the source. -/
def getauth (auth : String) : Option Nat :=
  if auth = "NONE" then some 0
  else if strStarts auth "NO" then
    (CURLAUTH (strDrop auth 2)).map fun x => Nat.land CURLAUTH_ANY (compl64 x)
  else if strStarts auth "SAFENO" then
    (CURLAUTH (strDrop auth 6)).map fun x => Nat.land CURLAUTH_ANYSAFE (compl64 x)
  else if strStarts auth "ONLY" then
    (CURLAUTH (strDrop auth 4)).map fun x => Nat.lor CURLAUTH_ONLY x
  else CURLAUTH auth

/-- Curl.set_tunnel: sets the two tunnel-related engine options and records
the tunnel flag. -/
def set_tunnel (c : Curl) (tunnel : Bool) : Curl × List EngineOp :=
  ({ c with is_tunnel := tunnel },
   [EngineOp.httpproxytunnel tunnel, EngineOp.suppressConnectHeaders tunnel])

/-- Curl.set_proxy: declined (returning False, with the handle and engine
untouched) when the proxy endpoint is in the process-wide failed list;
otherwise records the proxy on the handle, applies the engine proxy
options, and for CONNECT handles turns tunneling off. -/
def set_proxy (c : Curl) (failed : List String) (proxy : String) (port : Int)
    (noproxy : Option String) : Bool × Curl × List EngineOp :=
  if proxy ∈ failed then (false, c, [])
  else
    let c1 := { c with proxy := some proxy }
    let ops := [EngineOp.proxyHost proxy, EngineOp.proxyport port] ++
      (match noproxy with
       | some np => [EngineOp.noproxy np]
       | none => [])
    if c1.is_connect then
      let t := set_tunnel c1 false
      (true, t.1, ops ++ t.2)
    else (true, c1, ops)

/-- The mechanism selected by Curl.set_auth: the cached proxytype entry for
the proxy of the handle if present, the caller-requested value otherwise. -/
def cachedMech (cache : ProxyCache) (proxy : Option String) (a : String) : String :=
  match cache.lookup proxy with
  | some m => m
  | none => a

/-- Curl.set_auth: credential option writes, then (when a mechanism was
requested) mechanism selection with the proxytype cache taking precedence,
the PROXYAUTH engine write derived via getauth, and tunneling for CONNECT
handles.  Returns none when getauth raises (unknown mechanism name). -/
def set_auth (c : Curl) (cache : ProxyCache) (user : String)
    (password : Option String) (auth : Option String) :
    Option (Curl × List EngineOp) :=
  let base : Curl × List EngineOp :=
    if user = ":" then (c, [EngineOp.proxyuserpwd user])
    else
      ({ c with user := some user },
       [EngineOp.proxyusername user] ++
         (match password with
          | some p => [EngineOp.proxypassword p]
          | none => []))
  match auth with
  | none => some base
  | some a =>
    let mech := cachedMech cache base.1.proxy a
    let c1 := { base.1 with auth := some mech }
    match getauth mech with
    | none => none
    | some v =>
      let ops := base.2 ++ [EngineOp.proxyauth v]
      if c1.is_connect then
        let t := set_tunnel c1 true
        some (t.1, ops ++ t.2)
      else some (c1, ops)

/-- The blank header line b"\r\n" that terminates a header block. -/
def crlf : List Nat := [13, 10]

/-- Append one chunk to the header sink of a handle, in the style of an
io.BytesIO sink: the write returns the byte count.  When no sink is
configured the bytes are ignored and reported fully consumed, as in the
source. -/
def hfileWrite (c : Curl) (data : List Nat) : Curl × Nat :=
  match c.client_hfile with
  | some chunks => ({ c with client_hfile := some (chunks ++ [data]) }, data.length)
  | none => (c, data.length)

/-- header_callback: one response header line delivered by the engine.
Returns the updated handle and the byte count reported to the engine. -/
def header_callback (c : Curl) (data : List Nat) : Curl × Nat :=
  let tsize := data.length
  if 0 < tsize then
    if c.suppress then
      if data = crlf then ({ c with suppress := false }, tsize)
      else (c, tsize)
    else
      if data = crlf then hfileWrite { c with sentheaders := true } data
      else if c.auth.isSome = true ∧ data.head? = some 72 ∧
          bytesHave data [52, 48, 55] = true then
        ({ c with suppress := true }, tsize)
      else hfileWrite c data
  else (c, 0)

/-- Feed a sequence of header lines through header_callback. -/
def process_headers (c : Curl) (lines : List (List Nat)) : Curl :=
  lines.foldl (fun acc d => (header_callback acc d).1) c

/-- Curl.bridge: register the client I/O files; with no header sink the
handle is marked as having already sent headers. -/
def bridge (c : Curl) (client_rfile : Option (List Nat))
    (client_wfile client_hfile : Option (List (List Nat))) : Curl :=
  let c := match client_rfile with
    | some r => { c with client_rfile := some r }
    | none => c
  let c := match client_wfile with
    | some w => { c with client_wfile := some w }
    | none => c
  match client_hfile with
  | some h => { c with client_hfile := some h }
  | none => { c with sentheaders := true }

/-- write_callback: one response body chunk delivered by the engine.
Returns the updated handle and the byte count reported as consumed. -/
def write_callback (c : Curl) (data : List Nat) : Curl × Nat :=
  let tsize := data.length
  if 0 < tsize then
    if c.sentheaders then
      match c.client_wfile with
      | some chunks => ({ c with client_wfile := some (chunks ++ [data]) }, tsize)
      | none => (c, tsize)
    else (c, tsize)
  else (c, tsize)

/-- Feed a sequence of body chunks through write_callback, collecting the
reported byte counts. -/
def write_many : Curl → List (List Nat) → Curl × List Nat
  | c, [] => (c, [])
  | c, d :: rest =>
    let s := write_callback c d
    let r := write_many s.1 rest
    (r.1, s.2 :: r.2)

/-- save_auth: scrape one outbound header line for the proxy auth
mechanism.  Returns the flag telling wa_callback whether to stop scraping,
plus the updated process-wide proxytype cache; none models the IndexError
raised when a matching line has no second token. -/
def save_auth (c : Curl) (cache : ProxyCache) (msg : String) :
    Option (Bool × ProxyCache) :=
  if (cache.lookup c.proxy).isSome then some (true, cache)
  else if c.auth = none then some (true, cache)
  else if strStarts msg "Proxy-Authorization:" then
    match (pySplitSpace msg)[1]? with
    | none => none
    | some tok => some (true, cache ++ [(c.proxy, strUpper tok)])
  else some (false, cache)

/-- wa_callback: feed the outbound header lines of one debug message to
save_auth, stopping at the first line that reports the mechanism as
cached. -/
def wa_loop (c : Curl) (cache : ProxyCache) : List String → Option ProxyCache
  | [] => some cache
  | msg :: rest =>
    match save_auth c cache msg with
    | none => none
    | some (true, cache2) => some cache2
    | some (false, cache2) => wa_loop c cache2 rest

/-- Append a descriptor to an interest list unless already present,
mirroring the guarded list append of socket_callback. -/
def addInterest (l : List Nat) (fd : Nat) : List Nat :=
  if fd ∈ l then l else l ++ [fd]

/-- socket_callback: engine socket-event notification updating the two
interest lists of the registry. -/
def socket_callback (rlist wlist : List Nat) (sock_fd : Nat) (ev_bitmask : Nat) :
    List Nat × List Nat :=
  let rlist :=
    if Nat.land ev_bitmask CURL_POLL_IN ≠ 0 ∨ Nat.land ev_bitmask CURL_POLL_INOUT ≠ 0
    then addInterest rlist sock_fd else rlist
  let wlist :=
    if Nat.land ev_bitmask CURL_POLL_OUT ≠ 0 ∨ Nat.land ev_bitmask CURL_POLL_INOUT ≠ 0
    then addInterest wlist sock_fd else wlist
  if Nat.land ev_bitmask CURL_POLL_REMOVE ≠ 0 then
    (if sock_fd ∈ rlist then rlist.erase sock_fd else rlist,
     if sock_fd ∈ wlist then wlist.erase sock_fd else wlist)
  else (rlist, wlist)

/-- One write-ready step of the tunnel relay loop in MCurl.select, for the
direction whose pending queue is wdata: the head chunk is taken (none
models the IndexError on an empty queue), the send result bsnt is a
parameter, and the queue and write-interest list are updated exactly as in
the source. -/
def relay_write (wdata : List (List Nat)) (wlist : List Nat) (o : Nat)
    (bsnt : Nat) : Option (List (List Nat) × List Nat) :=
  match wdata with
  | [] => none
  | data :: rest =>
    if 0 < bsnt then
      if bsnt < data.length then
        some (data.drop bsnt :: rest,
          if o ∈ wlist then wlist else wlist ++ [o])
      else
        some (rest, if data = [] ∧ o ∈ wlist then wlist.erase o else wlist)
    else some (data :: rest, wlist)

/-- MCurl._update_transfers, completion branch for one handle: mark done
and, on an engine error result, record the code and its error text. -/
def update_transfers_mark (c : Curl) (result : Nat) : Curl :=
  let c := { c with done := true }
  if result ≠ CURLE_OK then
    { c with cerr := result, errstr := toString result ++ "; " }
  else c

/-- MCurl._remove_handle, status part: force done and append the optional
reason to the error text. -/
def remove_handle_mark (c : Curl) (errstr : String) : Curl :=
  let c := if c.done = false then { c with done := true } else c
  if errstr.length ≠ 0 then { c with errstr := c.errstr ++ errstr ++ "; " }
  else c

/-- MCurl.do, error-code mapping: translate engine error codes into
HTTP-style response codes, appending the reason to the error text. -/
def do_maperr (c : Curl) : Curl :=
  if c.cerr = CURLE_URL_MALFORMAT then
    { c with resp := 400, errstr := c.errstr ++ "URL malformed" }
  else if c.cerr = CURLE_UNSUPPORTED_PROTOCOL ∨ c.cerr = CURLE_NOT_BUILT_IN then
    { c with resp := 501, errstr :=
        c.errstr ++ "Unsupported protocol, not built-in, or function not found" }
  else if c.cerr = CURLE_COULDNT_RESOLVE_PROXY ∨ c.cerr = CURLE_COULDNT_RESOLVE_HOST ∨
      c.cerr = CURLE_COULDNT_CONNECT then
    { c with resp := 502, errstr :=
        c.errstr ++ "Could not resolve or connect to proxy or host" }
  else if c.cerr = CURLE_OPERATION_TIMEDOUT then
    { c with resp := 504, errstr := c.errstr ++ "Operation timed out" }
  else c

/-- MCurl.do, 407 handling: given the get_response metadata (ret, codep)
reported by the engine, update the handle and the process-wide failed
list. -/
def do407 (c : Curl) (failed : List String) (ret : Nat) (codep : Nat) :
    Curl × List String :=
  match c.proxy with
  | none => (c, failed)
  | some p =>
    if ret = 0 ∧ codep = 407 then
      if c.cerr = CURLE_SEND_FAIL_REWIND then
        ({ c with resp := 503, errstr :=
            c.errstr ++ "POST/PUT rewind not supported (#199)" ++ "; " },
         failed)
      else if c.auth.isSome then
        let out := "Proxy authentication failed: " ++
          (if c.user.isSome then "check user/password or try different auth mechanism"
           else "single sign-on failed, user/password might be required")
        ({ c with resp := 401, errstr := c.errstr ++ out ++ "; " }, failed ++ [p])
      else if c.is_connect = false then ({ c with resp := codep }, failed)
      else (c, failed)
    else (c, failed)

/-- Curl._setup: the Python-visible field effects of base setup (method
recording, method-shape flags, CONNECT tunneling and url normalization, url
and request_version recording).  Engine-only setopt calls (timeouts, CA
bundle, HTTP version, debug callback) have no Python-visible field and are
not modelled. -/
def setup (c : Curl) (url method request_version : String)
    (connect_timeout : Nat) : Curl :=
  let _ := connect_timeout
  let c := { c with method := some method }
  let cu : Curl × String :=
    if method = "CONNECT" then
      ((set_tunnel { c with is_connect := true } true).1,
       if strHave url "://" then url else "http://" ++ url)
    else if method = "GET" then (c, url)
    else if method = "HEAD" then (c, url)
    else if method = "POST" then ({ c with is_post := true }, url)
    else if method = "PUT" then ({ c with is_upload := true }, url)
    else if method = "PATCH" ∨ method = "DELETE" then
      (if method = "PATCH" then { c with is_patch := true } else c, url)
    else (c, url)
  { cu.1 with url := some cu.2, request_version := some request_version }

/-- Curl construction: class attribute defaults followed by _setup. -/
def curl_new (url method request_version : String) (connect_timeout : Nat) : Curl :=
  setup {} url method request_version connect_timeout

/-- Curl.reset: restore the listed runtime and request fields to defaults
(the headers field becomes the Python None value, and is_easy is not
touched), then re-run _setup. -/
def reset (c : Curl) (url method request_version : String)
    (connect_timeout : Nat) : Curl :=
  let c := { c with
    sock_fd := none,
    client_rfile := none, client_wfile := none, client_hfile := none,
    auth := none, proxy := none, size := none, user := none, xheaders := none,
    cerr := CURLE_OK, done := false, errstr := "", resp := 503,
    sentheaders := false, suppress := false,
    is_connect := false, is_patch := false, is_post := false,
    is_tunnel := false, is_upload := false,
    headers := HeadersField.pynone }
  setup c url method request_version connect_timeout

/-- C2: for every proxy endpoint in the process-wide failure blacklist,
set_proxy returns False and leaves the handle unchanged, with no
engine-level proxy, proxy-port or noproxy option applied. -/
theorem set_proxy_declines_blacklisted (c : Curl) (failed : List String)
    (p : String) (port : Int) (np : Option String) (h : p ∈ failed) :
    set_proxy c failed p port np = (false, c, []) := by
  simp [set_proxy, h]

/-- Witness for C2 at a concrete blacklisted proxy. -/
theorem set_proxy_declines_blacklisted_wit :
    set_proxy {} ["badproxy.test:3128"] "badproxy.test:3128" 3128 none
      = (false, ({} : Curl), []) :=
  set_proxy_declines_blacklisted {} ["badproxy.test:3128"] "badproxy.test:3128"
    3128 none (by decide)

/-- C1: set_auth with a non-None requested mechanism always records the
mechanism selected by cachedMech — the cached proxytype value when the
proxy of the handle is in the cache (regardless of the requested value),
the requested value otherwise — and configures the engine PROXYAUTH option
with the getauth value derived from that selected mechanism. -/
theorem set_auth_cache_wins (c : Curl) (cache : ProxyCache) (u : String)
    (pw : Option String) (a : String) (v : Nat)
    (hv : getauth (cachedMech cache c.proxy a) = some v) :
    ∃ c2 ops, set_auth c cache u pw (some a) = some (c2, ops) ∧
      c2.auth = some (cachedMech cache c.proxy a) ∧
      EngineOp.proxyauth v ∈ ops ∧
      (∀ m, cache.lookup c.proxy = some m → c2.auth = some m) ∧
      (cache.lookup c.proxy = none → c2.auth = some a) := by
  have ha : ∀ c2 : Curl, c2.auth = some (cachedMech cache c.proxy a) →
      (∀ m, cache.lookup c.proxy = some m → c2.auth = some m) ∧
      (cache.lookup c.proxy = none → c2.auth = some a) := by
    intro c2 h
    refine ⟨fun m hm => ?_, fun hm => ?_⟩ <;> rw [h] <;> simp [cachedMech, hm]
  by_cases hu : u = ":" <;> by_cases hc : c.is_connect <;>
    simp only [set_auth, hu, hc, hv, set_tunnel, ite_true, ite_false,
      if_true, if_false, Bool.false_eq_true, reduceCtorEq, reduceIte] <;>
    exact ⟨_, _, rfl, rfl, by simp, (ha _ rfl).1, (ha _ rfl).2⟩

/-- Witness for C1: the cache holds NTLM for this proxy, the caller requests
ANY, and the handle ends up configured with NTLM (getauth NTLM = 8). -/
theorem set_auth_cache_wins_wit :
    ∃ c2 ops,
      set_auth { proxy := some "proxy.test:3128" }
        [(some "proxy.test:3128", "NTLM")] "u" none (some "ANY")
        = some (c2, ops) ∧
      c2.auth = some (cachedMech [(some "proxy.test:3128", "NTLM")]
        (some "proxy.test:3128") "ANY") ∧
      EngineOp.proxyauth 8 ∈ ops ∧
      (∀ m, ([((some "proxy.test:3128" : Option String), "NTLM")].lookup
          (some "proxy.test:3128" : Option String)) = some m → c2.auth = some m) ∧
      (([((some "proxy.test:3128" : Option String), "NTLM")].lookup
          (some "proxy.test:3128" : Option String)) = none → c2.auth = some "ANY") :=
  set_auth_cache_wins { proxy := some "proxy.test:3128" }
    [(some "proxy.test:3128", "NTLM")] "u" none "ANY" 8 (by decide)


/-- While suppressing, any header line other than the blank terminator
leaves the handle unchanged. -/
theorem suppress_keeps (c : Curl) (h : c.suppress = true) (d : List Nat)
    (hd : d ≠ crlf) : (header_callback c d).1 = c := by
  by_cases h0 : 0 < d.length <;> simp [header_callback, h0, h, hd]

/-- While suppressing, a stream of non-blank header lines leaves the handle
unchanged. -/
theorem process_headers_suppressed (ds : List (List Nat)) :
    ∀ c : Curl, c.suppress = true → (∀ d ∈ ds, d ≠ crlf) →
      process_headers c ds = c := by
  induction ds with
  | nil => intro c _ _; rfl
  | cons d rest ih =>
    intro c h hd
    have h1 : (header_callback c d).1 = c :=
      suppress_keeps c h d (hd d (List.mem_cons_self d rest))
    calc process_headers c (d :: rest)
        = process_headers (header_callback c d).1 rest := rfl
      _ = process_headers c rest := by rw [h1]
      _ = c := ih c h (fun x hx => hd x (List.mem_cons_of_mem d hx))

/-- Resetting the suppress flag of a non-suppressing handle is the
identity. -/
theorem curl_set_suppress_false (c : Curl) (h : c.suppress = false) :
    ({ c with suppress := false } : Curl) = c := by
  cases c; simp_all

/-- C3: with an auth mechanism configured, a 407 status line (starting with
the byte H and containing 407) followed by challenge header lines and the
blank terminator leaves the handle exactly as before: nothing is written to
the header sink, suppression is cleared by the terminator instead of
setting sentheaders; and a blank terminator arriving while not suppressing
does set sentheaders. -/
theorem suppressed_407_headers (c : Curl) (status : List Nat)
    (challenges : List (List Nat))
    (hauth : c.auth.isSome = true) (hsup : c.suppress = false)
    (hH : status.head? = some 72) (h407 : bytesHave status [52, 48, 55] = true)
    (hch : ∀ d ∈ challenges, d ≠ crlf) :
    process_headers c (status :: (challenges ++ [crlf])) = c ∧
    (header_callback c crlf).1.sentheaders = true := by
  have hne : status ≠ crlf := by
    intro e; rw [e] at hH; exact absurd hH (by decide)
  have hlen : 0 < status.length := by
    cases status with
    | nil => exact absurd hH (by simp)
    | cons a t => simp
  have h1 : (header_callback c status).1 = { c with suppress := true } := by
    simp [header_callback, hlen, hsup, hne, hauth, hH, h407]
  have h2 : process_headers c (status :: (challenges ++ [crlf])) =
      process_headers ({ c with suppress := true }) (challenges ++ [crlf]) := by
    show process_headers (header_callback c status).1 (challenges ++ [crlf]) = _
    rw [h1]
  have h3 : process_headers ({ c with suppress := true }) (challenges ++ [crlf]) =
      (header_callback
        (process_headers ({ c with suppress := true }) challenges) crlf).1 := by
    simp [process_headers, List.foldl_append]
  have h4 : process_headers ({ c with suppress := true } : Curl) challenges =
      { c with suppress := true } :=
    process_headers_suppressed challenges _ rfl hch
  have h5 : (header_callback ({ c with suppress := true } : Curl) crlf).1 = c := by
    have : (header_callback ({ c with suppress := true } : Curl) crlf).1 =
        ({ c with suppress := false } : Curl) := by
      simp [header_callback, crlf]
    rw [this, curl_set_suppress_false c hsup]
  refine ⟨by rw [h2, h3, h4, h5], ?_⟩
  cases hcf : c.client_hfile <;>
    simp [header_callback, hfileWrite, hsup, crlf, hcf]

/-- Witness for C3 on a concrete 407 exchange with two challenge lines. -/
theorem suppressed_407_headers_wit :
    process_headers { auth := some "NTLM", client_hfile := some [] }
        ([72, 32, 52, 48, 55] :: ([[80, 65], [66]] ++ [crlf]))
      = { auth := some "NTLM", client_hfile := some [] } ∧
    (header_callback { auth := some "NTLM", client_hfile := some [] }
        crlf).1.sentheaders = true :=
  suppressed_407_headers { auth := some "NTLM", client_hfile := some [] }
    [72, 32, 52, 48, 55] [[80, 65], [66]]
    rfl rfl rfl (by decide) (by decide)

/-- Rewriting the body sink of a handle to its current value is the
identity. -/
theorem curl_set_wfile (c : Curl) (buf : List (List Nat))
    (h : c.client_wfile = some buf) :
    ({ c with client_wfile := some buf } : Curl) = c := by
  cases c; simp_all

/-- With sentheaders set and a body sink configured, write_callback
forwards every nonempty chunk and reports it fully consumed. -/
theorem write_many_forwards (chunks : List (List Nat)) :
    ∀ (c : Curl) (buf : List (List Nat)), c.sentheaders = true →
      c.client_wfile = some buf → (∀ d ∈ chunks, d ≠ []) →
      write_many c chunks =
        ({ c with client_wfile := some (buf ++ chunks) }, chunks.map List.length) := by
  induction chunks with
  | nil =>
    intro c buf hs hw _
    simp only [List.append_nil, List.map_nil]
    rw [curl_set_wfile c buf hw]
    rfl
  | cons d rest ih =>
    intro c buf hs hw hne
    have hd : 0 < d.length := by
      have h := hne d (List.mem_cons_self d rest)
      cases d with
      | nil => exact absurd rfl h
      | cons a t => simp
    have hwc : write_callback c d =
        ({ c with client_wfile := some (buf ++ [d]) }, d.length) := by
      simp [write_callback, hd, hs, hw]
    have ih2 := ih ({ c with client_wfile := some (buf ++ [d]) } : Curl)
      (buf ++ [d]) (by simp [hs]) rfl (fun x hx => hne x (List.mem_cons_of_mem d hx))
    calc write_many c (d :: rest)
        = ((write_many (write_callback c d).1 rest).1,
           (write_callback c d).2 :: (write_many (write_callback c d).1 rest).2) := rfl
      _ = _ := by
        rw [hwc]
        simp only [ih2, List.map_cons]
        refine Prod.ext ?_ rfl
        ext <;> simp

/-- With sentheaders still false, write_callback discards every chunk yet
reports it fully consumed. -/
theorem write_many_discards (chunks : List (List Nat)) :
    ∀ c : Curl, c.sentheaders = false →
      write_many c chunks = (c, chunks.map List.length) := by
  induction chunks with
  | nil => intro c _; rfl
  | cons d rest ih =>
    intro c hs
    have hwc : write_callback c d = (c, d.length) := by
      by_cases hd : 0 < d.length <;> simp [write_callback, hd, hs]
    calc write_many c (d :: rest)
        = ((write_many (write_callback c d).1 rest).1,
           (write_callback c d).2 :: (write_many (write_callback c d).1 rest).2) := rfl
      _ = _ := by rw [hwc]; simp [ih c hs]

/-- With no body sink, write_callback reports every chunk fully consumed
and leaves the handle unchanged. -/
theorem write_many_nofile (chunks : List (List Nat)) :
    ∀ c : Curl, c.client_wfile = none →
      write_many c chunks = (c, chunks.map List.length) := by
  induction chunks with
  | nil => intro c _; rfl
  | cons d rest ih =>
    intro c hw
    have hwc : write_callback c d = (c, d.length) := by
      by_cases hd : 0 < d.length <;> cases hs : c.sentheaders <;>
        simp [write_callback, hd, hs, hw]
    calc write_many c (d :: rest)
        = ((write_many (write_callback c d).1 rest).1,
           (write_callback c d).2 :: (write_many (write_callback c d).1 rest).2) := rfl
      _ = _ := by rw [hwc]; simp [ih c hw]

/-- C10: bridging with no header sink sets sentheaders immediately, so
every body chunk delivered afterwards is forwarded to the body sink (or
reported fully consumed when no body sink exists); with a header sink
configured, sentheaders stays false and body chunks arriving before the
blank header terminator are discarded yet reported fully consumed. -/
theorem bridge_no_header_sink (c : Curl) (r : Option (List Nat))
    (wbuf hbuf : List (List Nat)) (chunks : List (List Nat))
    (hne : ∀ d ∈ chunks, d ≠ []) (hsent : c.sentheaders = false)
    (hw : c.client_wfile = none) :
    (bridge c r (some wbuf) none).sentheaders = true ∧
    write_many (bridge c r (some wbuf) none) chunks =
      ({ bridge c r (some wbuf) none with client_wfile := some (wbuf ++ chunks) },
       chunks.map List.length) ∧
    (bridge c r none none).sentheaders = true ∧
    write_many (bridge c r none none) chunks =
      (bridge c r none none, chunks.map List.length) ∧
    (bridge c r (some wbuf) (some hbuf)).sentheaders = false ∧
    write_many (bridge c r (some wbuf) (some hbuf)) chunks =
      (bridge c r (some wbuf) (some hbuf), chunks.map List.length) := by
  have hA : (bridge c r (some wbuf) none).sentheaders = true ∧
      (bridge c r (some wbuf) none).client_wfile = some wbuf := by
    cases r <;> simp [bridge]
  have hB : (bridge c r none none).sentheaders = true ∧
      (bridge c r none none).client_wfile = none := by
    cases r <;> simp [bridge, hw]
  have hC : (bridge c r (some wbuf) (some hbuf)).sentheaders = false := by
    cases r <;> simp [bridge, hsent]
  exact ⟨hA.1, write_many_forwards chunks _ wbuf hA.1 hA.2 hne,
    hB.1, write_many_nofile chunks _ hB.2,
    hC, write_many_discards chunks _ hC⟩

/-- Witness for C10 on a fresh handle and one concrete body chunk. -/
theorem bridge_no_header_sink_wit :
    (bridge {} none (some []) none).sentheaders = true ∧
    write_many (bridge {} none (some []) none) [[1]] =
      ({ bridge {} none (some []) none with client_wfile := some ([] ++ [[1]]) },
       [[1]].map List.length) ∧
    (bridge {} none none none).sentheaders = true ∧
    write_many (bridge {} none none none) [[1]] =
      (bridge {} none none none, [[1]].map List.length) ∧
    (bridge {} none (some []) (some [])).sentheaders = false ∧
    write_many (bridge {} none (some []) (some [])) [[1]] =
      (bridge {} none (some []) (some []), [[1]].map List.length) :=
  bridge_no_header_sink {} none [] [] [[1]] (by decide) rfl rfl


/-- Membership in an interest list after the guarded append. -/
theorem mem_addInterest (l : List Nat) (fd x : Nat) :
    x ∈ addInterest l fd ↔ x ∈ l ∨ x = fd := by
  unfold addInterest
  by_cases h : fd ∈ l
  · simp only [if_pos h]
    constructor
    · exact Or.inl
    · rintro (hx | rfl)
      · exact hx
      · exact h
  · simp [if_neg h]

/-- The guarded append preserves distinctness of the interest list. -/
theorem nodup_addInterest (l : List Nat) (fd : Nat) (h : l.Nodup) :
    (addInterest l fd).Nodup := by
  unfold addInterest
  by_cases hm : fd ∈ l
  · simpa [hm]
  · simp [hm, List.nodup_append, h]

/-- The guarded removal drops the descriptor and preserves distinctness. -/
theorem remove_step (l : List Nat) (fd : Nat) (h : l.Nodup) :
    fd ∉ (if fd ∈ l then l.erase fd else l) ∧
    (if fd ∈ l then l.erase fd else l).Nodup := by
  by_cases hm : fd ∈ l
  · simp only [if_pos hm]
    exact ⟨h.not_mem_erase, h.erase fd⟩
  · simp only [if_neg hm]
    exact ⟨hm, h⟩

/-- The guarded append and removal step applied to one interest list. -/
theorem interest_mem (l : List Nat) (fd : Nat) (add : Prop) [Decidable add]
    (hl : l.Nodup) :
    (fd ∈ (if add then addInterest l fd else l) ↔ (fd ∈ l ∨ add)) ∧
    (if add then addInterest l fd else l).Nodup := by
  by_cases ha : add
  · simp [ha, mem_addInterest, nodup_addInterest, hl]
  · simp [ha, hl]

/-- C5 counterexample: with event mask CURL_POLL_OUT, which indicates pure
write interest, the descriptor is nevertheless added to the read-interest
list (the read test also accepts any mask intersecting CURL_POLL_INOUT,
and CURL_POLL_INOUT is the union of the read and write bits), so the
claimed "read list gains d exactly on read or in/out interest" fails. -/
theorem socket_callback_out_adds_read :
    socket_callback [] [] 5 CURL_POLL_OUT = ([5], [5]) := by decide

/-- C5 amended: the descriptor ends up in the read-interest list exactly
when the mask has no remove bit and (it was present already, or the mask
intersects CURL_POLL_IN or CURL_POLL_INOUT); symmetrically for the
write-interest list with CURL_POLL_OUT — so pure IN or pure OUT interest
adds to both lists; the remove bit removes it from both; distinctness is
preserved, and adding an already-present descriptor leaves both lists
unchanged. -/
theorem socket_callback_spec (r w : List Nat) (fd ev : Nat)
    (hr : r.Nodup) (hw : w.Nodup) :
    (fd ∈ (socket_callback r w fd ev).1 ↔
      Nat.land ev CURL_POLL_REMOVE = 0 ∧
        (fd ∈ r ∨ (Nat.land ev CURL_POLL_IN ≠ 0 ∨ Nat.land ev CURL_POLL_INOUT ≠ 0))) ∧
    (fd ∈ (socket_callback r w fd ev).2 ↔
      Nat.land ev CURL_POLL_REMOVE = 0 ∧
        (fd ∈ w ∨ (Nat.land ev CURL_POLL_OUT ≠ 0 ∨ Nat.land ev CURL_POLL_INOUT ≠ 0))) ∧
    (socket_callback r w fd ev).1.Nodup ∧
    (socket_callback r w fd ev).2.Nodup ∧
    (fd ∈ r → fd ∈ w → Nat.land ev CURL_POLL_REMOVE = 0 →
      socket_callback r w fd ev = (r, w)) := by
  obtain ⟨hr1, hr2⟩ := interest_mem r fd
    (Nat.land ev CURL_POLL_IN ≠ 0 ∨ Nat.land ev CURL_POLL_INOUT ≠ 0) hr
  obtain ⟨hw1, hw2⟩ := interest_mem w fd
    (Nat.land ev CURL_POLL_OUT ≠ 0 ∨ Nat.land ev CURL_POLL_INOUT ≠ 0) hw
  by_cases hR : Nat.land ev CURL_POLL_REMOVE ≠ 0
  · obtain ⟨hrm, hrn⟩ := remove_step _ fd hr2
    obtain ⟨hwm, hwn⟩ := remove_step _ fd hw2
    simp only [socket_callback, if_pos hR]
    refine ⟨?_, ?_, hrn, hwn, ?_⟩
    · simp [hrm, hR]
    · simp [hwm, hR]
    · intro _ _ hz; exact absurd hz hR
  · have hz : Nat.land ev CURL_POLL_REMOVE = 0 := by
      by_contra hc; exact hR hc
    simp only [socket_callback, if_neg hR]
    refine ⟨by simp [hr1, hz], by simp [hw1, hz], hr2, hw2, ?_⟩
    intro hfr hfw _
    have e1 : (if Nat.land ev CURL_POLL_IN ≠ 0 ∨ Nat.land ev CURL_POLL_INOUT ≠ 0
        then addInterest r fd else r) = r := by
      by_cases hc : Nat.land ev CURL_POLL_IN ≠ 0 ∨ Nat.land ev CURL_POLL_INOUT ≠ 0 <;>
        simp [hc, addInterest, hfr]
    have e2 : (if Nat.land ev CURL_POLL_OUT ≠ 0 ∨ Nat.land ev CURL_POLL_INOUT ≠ 0
        then addInterest w fd else w) = w := by
      by_cases hc : Nat.land ev CURL_POLL_OUT ≠ 0 ∨ Nat.land ev CURL_POLL_INOUT ≠ 0 <;>
        simp [hc, addInterest, hfw]
    rw [e1, e2]

/-- Witness for the amended C5 on concrete distinct lists. -/
theorem socket_callback_spec_wit :
    (3 ∈ (socket_callback [1] [2] 3 CURL_POLL_IN).1 ↔
      Nat.land CURL_POLL_IN CURL_POLL_REMOVE = 0 ∧
        (3 ∈ [1] ∨ (Nat.land CURL_POLL_IN CURL_POLL_IN ≠ 0 ∨
          Nat.land CURL_POLL_IN CURL_POLL_INOUT ≠ 0))) ∧
    (3 ∈ (socket_callback [1] [2] 3 CURL_POLL_IN).2 ↔
      Nat.land CURL_POLL_IN CURL_POLL_REMOVE = 0 ∧
        (3 ∈ [2] ∨ (Nat.land CURL_POLL_IN CURL_POLL_OUT ≠ 0 ∨
          Nat.land CURL_POLL_IN CURL_POLL_INOUT ≠ 0))) ∧
    (socket_callback [1] [2] 3 CURL_POLL_IN).1.Nodup ∧
    (socket_callback [1] [2] 3 CURL_POLL_IN).2.Nodup ∧
    (3 ∈ [1] → 3 ∈ [2] → Nat.land CURL_POLL_IN CURL_POLL_REMOVE = 0 →
      socket_callback [1] [2] 3 CURL_POLL_IN = ([1], [2])) :=
  socket_callback_spec [1] [2] 3 CURL_POLL_IN (by decide) (by decide)

/-- C4 evaluation: a short write of 2 of 3 bytes requeues exactly the
remaining byte at the head (later chunks preserved in order) and keeps the
socket in the write-interest list; but a full write of the final pending
chunk leaves the socket in the write-interest list even though nothing is
pending anymore — the removal in the source is guarded by the emptiness of
the chunk just sent, which is impossible when the send count is positive,
so the claimed removal of write interest never happens. -/
theorem relay_write_eval :
    relay_write [[1, 2, 3], [4]] [7] 7 2 = some ([[3], [4]], [7]) ∧
    relay_write [[1, 2, 3]] [7] 7 3 = some ([], [7]) := by decide

/-- C6: in do, a handle that used a proxy and completed with response code
407, with an engine error other than the body-rewind failure and an auth
mechanism configured, is marked 401, gets a proxy-authentication-failure
reason (depending on whether an explicit user was set) appended to its
error text, and its proxy endpoint is appended to the failure blacklist. -/
theorem do407_auth_failure (c : Curl) (failed : List String) (p : String)
    (hp : c.proxy = some p) (hc : c.cerr ≠ CURLE_SEND_FAIL_REWIND)
    (ha : c.auth.isSome = true) :
    do407 c failed 0 407 =
      ({ c with resp := 401, errstr :=
          c.errstr ++ ("Proxy authentication failed: " ++
            (if c.user.isSome then "check user/password or try different auth mechanism"
             else "single sign-on failed, user/password might be required")) ++ "; " },
       failed ++ [p]) := by
  simp [do407, hp, hc, ha]

/-- Witness for C6 on a concrete handle with explicit user. -/
theorem do407_auth_failure_wit :
    (do407 { proxy := some "p:3128", cerr := CURLE_COULDNT_CONNECT, auth := some "NTLM", user := some "u" } [] 0 407).2 = ["p:3128"] ∧
    (do407 { proxy := some "p:3128", cerr := CURLE_COULDNT_CONNECT, auth := some "NTLM", user := some "u" } [] 0 407).1.resp = 401 := by
  rw [do407_auth_failure { proxy := some "p:3128", cerr := CURLE_COULDNT_CONNECT, auth := some "NTLM", user := some "u" } [] "p:3128" rfl (by decide) rfl]
  exact ⟨rfl, rfl⟩


/-- C7 counterexample: a handle with no proxy configured but with an auth
mechanism set does create a proxytype cache entry (keyed by the absent
proxy endpoint) when fed a matching line, so the claimed "no cache entry is
ever created by the lines of a handle with no proxy configured or no
configured auth" fails for the no-proxy half.  Scraping is skipped only
when auth is unset or the proxy is already cached. -/
theorem save_auth_no_proxy_caches :
    save_auth { auth := some "ANY" } [] "Proxy-Authorization: NTLM abc"
      = some (true, [(none, "NTLM")]) := by decide

/-- C7 amended: save_auth caches at most once per proxy endpoint — it is a
no-op returning true when the proxy of the handle is already cached, a
no-op returning true when the handle has no configured auth, and on the
first line starting with the Proxy-Authorization marker it stores the
upper-cased second whitespace-delimited token keyed by the (possibly
absent) proxy of the handle; a true result short-circuits the remaining
lines of the message in wa_callback. -/
theorem save_auth_spec (c : Curl) (cache : ProxyCache) (msg : String)
    (msgs : List String) :
    ((cache.lookup c.proxy).isSome = true → save_auth c cache msg = some (true, cache)) ∧
    (c.auth = none → save_auth c cache msg = some (true, cache)) ∧
    (∀ tok, cache.lookup c.proxy = none → c.auth ≠ none →
      strStarts msg "Proxy-Authorization:" = true →
      (pySplitSpace msg)[1]? = some tok →
      save_auth c cache msg = some (true, cache ++ [(c.proxy, strUpper tok)])) ∧
    (∀ cache2, save_auth c cache msg = some (true, cache2) →
      wa_loop c cache (msg :: msgs) = some cache2) := by
  refine ⟨?_, ?_, ?_, ?_⟩
  · intro h; simp [save_auth, h]
  · intro h
    by_cases hcached : (cache.lookup c.proxy).isSome <;>
      simp [save_auth, hcached, h]
  · intro tok hnc ha hs htok
    simp [save_auth, hnc, ha, hs, htok]
  · intro cache2 h
    simp [wa_loop, h]

/-- Witness for the amended C7: a concrete matching line creates the entry
with the upper-cased scheme token. -/
theorem save_auth_spec_wit :
    save_auth { proxy := some "p", auth := some "ANY" } [] "Proxy-Authorization: Ntlm t"
      = some (true, [] ++ [((some "p" : Option String), strUpper "Ntlm")]) :=
  (save_auth_spec { proxy := some "p", auth := some "ANY" } []
    "Proxy-Authorization: Ntlm t" []).2.2.1 "Ntlm" rfl (by decide) (by decide) (by decide)

/-- C8 counterexample: the completion-reconciliation path of
_update_transfers overwrites the error string of the handle rather than
appending — previously accumulated text is not a prefix of the result. -/
theorem update_transfers_overwrites :
    (update_transfers_mark { errstr := "X; " } 7).errstr = "7; " ∧
    ((update_transfers_mark { errstr := "X; " } 7).errstr.data.take 3
      = "X; ".data) = False := by
  constructor
  · decide
  · decide

/-- The empty suffix keeps the original text as a prefix. -/
theorem self_pref (s : String) : ∃ t, s = s ++ t := ⟨"", by simp⟩

/-- A single append keeps the original text as a prefix. -/
theorem append_pref (s a : String) : ∃ t, s ++ a = s ++ t := ⟨a, rfl⟩

/-- A double append keeps the original text as a prefix. -/
theorem append_pref2 (s a b : String) : ∃ t, s ++ a ++ b = s ++ t :=
  ⟨a ++ b, by rw [String.append_assoc]⟩

/-- C8 amended: remove/stop, the error-code mapping of do and the 407
handling of do all append to the error text of the handle with a
separator, so the existing text remains a prefix; the completion
reconciliation of _update_transfers instead replaces the error string with
the engine result text. -/
theorem errstr_accumulation (c : Curl) (e : String) (failed : List String)
    (ret codep r : Nat) (hr : r ≠ CURLE_OK) :
    (∃ t, (remove_handle_mark c e).errstr = c.errstr ++ t) ∧
    (∃ t, (do_maperr c).errstr = c.errstr ++ t) ∧
    (∃ t, (do407 c failed ret codep).1.errstr = c.errstr ++ t) ∧
    (update_transfers_mark c r).errstr = toString r ++ "; " := by
  refine ⟨?_, ?_, ?_, ?_⟩
  · simp only [remove_handle_mark]
    split_ifs <;>
      first
        | exact append_pref2 _ _ _
        | exact self_pref _
  · simp only [do_maperr]
    split_ifs <;>
      first
        | exact append_pref _ _
        | exact self_pref _
  · cases hp : c.proxy with
    | none => simp only [do407, hp]; exact self_pref _
    | some p =>
      simp only [do407, hp]
      split_ifs <;>
        first
          | exact append_pref2 _ _ _
          | exact self_pref _
  · simp only [update_transfers_mark]
    simp [hr]

/-- Witness for the amended C8 at concrete inputs. -/
theorem errstr_accumulation_wit :
    (∃ t, (remove_handle_mark {} "Stopped").errstr = ({} : Curl).errstr ++ t) ∧
    (∃ t, (do_maperr {}).errstr = ({} : Curl).errstr ++ t) ∧
    (∃ t, (do407 {} [] 0 0).1.errstr = ({} : Curl).errstr ++ t) ∧
    (update_transfers_mark {} 7).errstr = toString 7 ++ "; " :=
  errstr_accumulation {} "Stopped" [] 0 0 7 (by decide)

/-- C9 counterexample: resetting a freshly constructed handle with the very
same arguments does not reproduce every field of a fresh handle — the
owned header list field holds the NULL sentinel on a fresh handle but the
Python None value after reset. -/
theorem reset_headers_differ :
    (reset (curl_new "http://h" "GET" "HTTP/1.1" 60) "http://h" "GET" "HTTP/1.1" 60).headers
      ≠ (curl_new "http://h" "GET" "HTTP/1.1" 60).headers := by decide

/-- C9 amended: after reset the handle equals a freshly constructed handle
with the same arguments on every modelled field except two — the owned
header list is the Python None value rather than the NULL sentinel (both
denote the absence of owned headers), and is_easy keeps its pre-reset
value. -/
theorem reset_eq_fresh_up_to (c : Curl) (url method request_version : String)
    (ct : Nat) :
    reset c url method request_version ct =
      { curl_new url method request_version ct with
        headers := HeadersField.pynone, is_easy := c.is_easy } := by
  unfold reset curl_new setup
  split_ifs <;> rfl

end Mcurl
